import Mathlib

/-!
Verification development for the RSC backup-validation utility
(`RSC-Validate-Backup.py`).  The definitions below are a shallow embedding of
the orchestration core of that script: the Oracle validation poll loop
(`wait_for_oracle_job`), the Hyper-V activity-log poll loop in `main`
(lines 489-498), the mount locator (`find_hyperv_mount_id`), the unmount
retry loop (`unmount_vm`), the submission checks, the post-poll coordinator
logic of `main` (lines 499-511), and the mount-name generation
(lines 476-478).

External effects are modelled by explicit environments: each poll attempt or
unmount attempt receives the remote response (or an exception marker) from a
function `Nat → Event`.  Log output is modelled, where a claim needs it, by
ghost fields (warning flags, sleep counters, call counters).
-/

namespace RSC

/-- Python truthiness of an optional string: `None` and `""` are falsy. -/
def pyTruthy : Option String → Bool
  | none => false
  | some s => decide (s ≠ "")

/-- Python's `str.upper()` on the ASCII range, as a structurally recursive
map over the character list (the remote status vocabulary is ASCII). -/
def pyUpper (s : String) : String :=
  String.mk (s.data.map Char.toUpper)

/-! ## Oracle poll loop (`wait_for_oracle_job`, lines 174-192)

Each attempt's interaction with `graphql_query` and the
`oracleDatabaseAsyncRequestDetails` lookup is one of: the query raised an
exception, the details object was falsy, or a details object with an
optional `status` field was returned. -/

inductive OraclePollEvent where
  | exn : OraclePollEvent
  | noDetails : OraclePollEvent
  | details (status : Option String) : OraclePollEvent

/-- The terminal-status test of lines 187-189: `SUCCEEDED` returns `True`;
`FAILED`/`FAILURE` and `CANCELLED`/`CANCELED` return `False`; anything else
falls through (non-terminal). -/
def oracleTerminal (status : String) : Option Bool :=
  if status = "SUCCEEDED" then some true
  else if status = "FAILED" ∨ status = "FAILURE" then some false
  else if status = "CANCELLED" ∨ status = "CANCELED" then some false
  else none

/-- One poll attempt of `wait_for_oracle_job`: the status defaults to
`"UNKNOWN"` when details or the status field are missing and is upper-cased
(line 184); an exception skips the terminal checks (line 190). `none` means
the loop continues. -/
def oracleStep : OraclePollEvent → Option Bool
  | .exn => none
  | .noDetails => oracleTerminal "UNKNOWN"
  | .details st => oracleTerminal (pyUpper (st.getD "UNKNOWN"))

/-- Observable outcome of one run of the Oracle poll loop: the returned
boolean, how many status queries were issued, and how many interval sleeps
happened. -/
structure OracleRun where
  result : Bool
  queries : Nat
  sleeps : Nat
deriving DecidableEq, Repr

/-- The `for check_count in range(max_oracle_checks)` loop of lines 179-192,
by remaining fuel.  A sleep occurs after a non-terminal attempt exactly when
further attempts remain (`check_count < max_oracle_checks - 1`, line 191);
exhaustion returns `False` (line 192). -/
def oracleLoop (env : Nat → OraclePollEvent) : Nat → Nat → OracleRun
  | _, 0 => ⟨false, 0, 0⟩
  | k, rem + 1 =>
    match oracleStep (env k) with
    | some b => ⟨b, 1, 0⟩
    | none =>
      let rest := oracleLoop env (k + 1) rem
      ⟨rest.result, rest.queries + 1, rest.sleeps + (if 0 < rem then 1 else 0)⟩

/-- `max_oracle_checks = 120` (line 177). -/
def max_oracle_checks : Nat := 120

/-- `wait_for_oracle_job`, abstracted over the per-attempt responses. -/
def wait_for_oracle_job (env : Nat → OraclePollEvent) : OracleRun :=
  oracleLoop env 0 max_oracle_checks

/-! ## Hyper-V activity-log status check (`check_rubrik_task_status`,
lines 247-267) and the mount poll loop of `main` (lines 488-498) -/

/-- One node of the activity-series response (the fields the code reads). -/
structure ActivityNode where
  lastActivityType : Option String
  lastActivityStatus : Option String
deriving DecidableEq

/-- One attempt's interaction: the query raised, or a list of edges was
returned (each edge's `node` may be falsy). -/
inductive ActivityPollEvent where
  | exn : ActivityPollEvent
  | edges (ns : List (Option ActivityNode)) : ActivityPollEvent

/-- `TARGET_MOUNT_ACTIVITY_TYPES` (line 250). -/
def TARGET_MOUNT_ACTIVITY_TYPES : List String :=
  ["Recovery", "Mount", "LiveMount", "HyperVLiveMount", "HypervMount",
   "HyperV Snapshot Mount"]

/-- `node_activity_type in TARGET_MOUNT_ACTIVITY_TYPES` (line 260); a
missing type (`None`) is never a member. -/
def typeMatches : Option String → Bool
  | some t => TARGET_MOUNT_ACTIVITY_TYPES.contains t
  | none => false

/-- Lines 262-264: upper-case the raw status and map `SUCCESS` to
`SUCCEEDED`. -/
def mapActivityStatus (raw : String) : String :=
  if pyUpper raw = "SUCCESS" then "SUCCEEDED" else pyUpper raw

/-- The edge scan of lines 256-266: the first edge with a truthy node whose
activity type matches decides the result; a truthy raw status is mapped,
a falsy one yields `"UNKNOWN_STATUS_FIELD"`; no match yields `None`. -/
def scanEdges : List (Option ActivityNode) → Option String
  | [] => none
  | none :: rest => scanEdges rest
  | some node :: rest =>
    if typeMatches node.lastActivityType then
      match node.lastActivityStatus with
      | some raw =>
        if raw ≠ "" then some (mapActivityStatus raw)
        else some "UNKNOWN_STATUS_FIELD"
      | none => some "UNKNOWN_STATUS_FIELD"
    else scanEdges rest

/-- `check_rubrik_task_status`: any exception is caught and reported as
`None` (line 267); an empty edge list is `None` (line 255). -/
def check_rubrik_task_status : ActivityPollEvent → Option String
  | .exn => none
  | .edges es => scanEdges es

/-- `final_states` (line 493). -/
def final_states : List String :=
  ["SUCCEEDED", "FAILED", "CANCELED", "WARNING", "PARTIALLY_SUCCEEDED"]

/-- The break test of lines 491-494: a truthy `current_status` that is in
`final_states` ends the loop. -/
def hypervBreakOn (ev : ActivityPollEvent) : Bool :=
  match check_rubrik_task_status ev with
  | some s => decide (s ≠ "") && final_states.contains s
  | none => false

/-- Observable outcome of the Hyper-V mount poll loop:
`mount_task_final_state` after the loop, queries issued, sleeps taken. -/
structure HypervPollRun where
  finalState : Option String
  queries : Nat
  sleeps : Nat
deriving DecidableEq, Repr

/-- The `for i in range(max_checks)` loop of lines 489-496, by remaining
fuel.  On break the final state is the current status; otherwise a sleep
happens exactly when attempts remain (`i < max_checks - 1`, line 496). -/
def hypervLoop (env : Nat → ActivityPollEvent) : Nat → Nat → HypervPollRun
  | _, 0 => ⟨none, 0, 0⟩
  | i, rem + 1 =>
    if hypervBreakOn (env i) then ⟨check_rubrik_task_status (env i), 1, 0⟩
    else
      let rest := hypervLoop env (i + 1) rem
      ⟨rest.finalState, rest.queries + 1, rest.sleeps + (if 0 < rem then 1 else 0)⟩

/-- `max_checks = 72` (line 488). -/
def max_checks : Nat := 72

/-- The mount poll of lines 488-498 including the `for`-`else` clause: if
the loop completes without a final state, it is set to `"TIMEOUT"`. -/
def hyperv_poll (env : Nat → ActivityPollEvent) : HypervPollRun :=
  let r := hypervLoop env 0 max_checks
  match r.finalState with
  | none => ⟨some "TIMEOUT", r.queries, r.sleeps⟩
  | some s => ⟨some s, r.queries, r.sleeps⟩

/-! ## Mount locator (`find_hyperv_mount_id`, lines 269-280) -/

/-- One node of the `hypervMounts` lookup (the fields the code reads). -/
structure MountNode where
  id : Option String
  name : Option String
deriving DecidableEq

/-- Result of the locator together with ghost fields recording its log
output: the warning for an empty result, the warning for multiple matches,
and the informational message for a name mismatch. -/
structure LocateOutcome where
  mountId : Option String
  warnedNoMount : Bool
  warnedMultiple : Bool
  loggedNameMismatch : Bool
deriving DecidableEq

/-- `find_hyperv_mount_id`: one name-filtered lookup; an empty result warns
and returns `None`; with results, the first node is used (warning when more
than one), a name mismatch is only logged (line 278), and the id is returned
iff it is truthy (lines 279-280). -/
def find_hyperv_mount_id (all_mount_nodes : List MountNode)
    (mounted_vm_name_to_find : String) : LocateOutcome :=
  match all_mount_nodes with
  | [] => ⟨none, true, false, false⟩
  | first_mount :: rest =>
    let warnedMultiple := decide (1 < (first_mount :: rest).length)
    let found_name := first_mount.name
    let loggedNameMismatch := decide (found_name ≠ some mounted_vm_name_to_find)
    if pyTruthy first_mount.id then
      ⟨first_mount.id, false, warnedMultiple, loggedNameMismatch⟩
    else
      ⟨none, false, warnedMultiple, loggedNameMismatch⟩

/-! ## Unmount retry loop (`unmount_vm`, lines 283-329) -/

/-- The `error {message}` object of the unmount mutation; `none` as the
message models an absent or null `message` field. -/
structure UnmountError where
  message : Option String
deriving DecidableEq

/-- The `deleteHypervVirtualMachineSnapshotMount` payload; `error = none`
models an absent, null or otherwise falsy error object. -/
structure UnmountResult where
  id : Option String
  status : Option String
  error : Option UnmountError
deriving DecidableEq

/-- One attempt's interaction: `graphql_query` raised, or it returned a
payload (`none` for a falsy/empty `result`). -/
inductive UnmountResponse where
  | exn : UnmountResponse
  | ok (result : Option UnmountResult) : UnmountResponse

/-- `mutation_error and mutation_error.get('message')` (line 309): a truthy
error object with a truthy message. -/
def errWithMsg : Option UnmountError → Bool
  | some e => pyTruthy e.message
  | none => false

/-- One attempt of lines 302-322: an exception or empty payload fails the
attempt; an error-with-message fails it; otherwise the attempt succeeds,
with or without a task id (lines 314-320 return `True` in both branches). -/
def unmountAttemptOk : UnmountResponse → Bool
  | .exn => false
  | .ok none => false
  | .ok (some result) =>
    if errWithMsg result.error then false
    else if pyTruthy result.id then true
    else true

/-- Observable outcome of `unmount_vm`: the returned boolean, attempts
made, and retry-delay sleeps taken. -/
structure UnmountRun where
  result : Bool
  attempts : Nat
  sleeps : Nat
deriving DecidableEq, Repr

/-- The `for attempt in range(max_retries)` loop of lines 299-329, by
remaining fuel: a successful attempt returns `True` immediately; a failed
attempt sleeps and retries when attempts remain (`attempt < max_retries-1`,
line 323), else returns `False` (line 328). -/
def unmountLoop (env : Nat → UnmountResponse) : Nat → Nat → UnmountRun
  | _, 0 => ⟨false, 0, 0⟩
  | attempt, rem + 1 =>
    if unmountAttemptOk (env attempt) then ⟨true, 1, 0⟩
    else if 0 < rem then
      let rest := unmountLoop env (attempt + 1) rem
      ⟨rest.result, rest.attempts + 1, rest.sleeps + 1⟩
    else ⟨false, 1, 0⟩

/-- `unmount_vm`, abstracted over the per-attempt responses;
`max_retries = 3` at the call site in `main` (line 507). -/
def unmount_vm (env : Nat → UnmountResponse) (max_retries : Nat) : UnmountRun :=
  unmountLoop env 0 max_retries

/-! ## Submission checks (`validate_oracle_db_backup` lines 165-172,
`main` lines 483-485) -/

/-- An `{id status}` submission payload. -/
structure SubmitResponse where
  id : Option String
  status : Option String
deriving DecidableEq

/-- Lines 170-172: raise unless the response and its `id` are truthy. -/
def validate_oracle_db_backup (validation_response : Option SubmitResponse) :
    Except String SubmitResponse :=
  match validation_response with
  | none => .error "Failed to initiate Oracle validation."
  | some r =>
    if pyTruthy r.id then .ok r
    else .error "Failed to initiate Oracle validation."

/-- Lines 483-485: `taskchain_uuid = result.get('id') if result else None`;
raise `"Mount failed."` unless it is truthy; polling starts only on `ok`. -/
def hyperv_mount_submit (result : Option SubmitResponse) : Except String String :=
  let taskchain_uuid : Option String :=
    match result with
    | some r => r.id
    | none => none
  if pyTruthy taskchain_uuid then .ok (taskchain_uuid.getD "")
  else .error "Mount failed."

/-! ## Post-poll coordinator (`main`, lines 356 and 499-511) -/

/-- Observable outcome of the Hyper-V coordinator tail: the final exit
code, the grace-period sleep seconds before the locate call (line 500), and
how often the locator and the unmount routine were invoked. -/
structure HypervOutcome where
  exitCode : Nat
  graceSleep : Nat
  locateCalls : Nat
  unmountCalls : Nat
deriving DecidableEq, Repr

/-- Lines 499-511 of `main`, with `exit_code = 1` from line 356 still in
force: only a `SUCCEEDED` final state sleeps 10s and locates the mount; a
truthy mount id triggers the unmount; on successful unmount initiation the
code computes `0 if mount_task_final_state == 'SUCCEEDED' and exit_code != 1
else 1` (line 508) with `exit_code` still `1`. -/
def hyperv_finish (mount_task_final_state : String) (find_result : Option String)
    (unmount_initiated : Bool) : HypervOutcome :=
  let exit_code : Nat := 1
  if mount_task_final_state = "SUCCEEDED" then
    let mount_id_to_unmount := find_result
    if pyTruthy mount_id_to_unmount then
      if unmount_initiated then
        ⟨if mount_task_final_state = "SUCCEEDED" ∧ ¬ exit_code = 1 then 0 else 1,
         10, 1, 1⟩
      else ⟨1, 10, 1, 1⟩
    else ⟨1, 10, 1, 0⟩
  else ⟨exit_code, 0, 0, 0⟩

/-- The Hyper-V workflow tail from the mount poll onwards: poll, then the
coordinator logic of lines 499-511 over the locator and unmount results. -/
def hyperv_workflow (pollEnv : Nat → ActivityPollEvent)
    (mount_nodes : List MountNode) (mountName : String)
    (unmountEnv : Nat → UnmountResponse) : HypervOutcome :=
  let fs := (hyperv_poll pollEnv).finalState.getD ""
  hyperv_finish fs (find_hyperv_mount_id mount_nodes mountName).mountId
    (unmount_vm unmountEnv 3).result

/-! ## Mount-name generation (`main`, lines 476-478) -/

/-- Line 477: keep alphanumerics, `_` and `-`; replace anything else by
`_`. -/
def sanitizeChar (c : Char) : Char :=
  if c.isAlphanum ∨ c = '_' ∨ c = '-' then c else '_'

/-- Line 477: sanitize the selected VM name and truncate to 20 characters. -/
def base_name (vmName : String) : String :=
  String.mk ((vmName.data.map sanitizeChar).take 20)

/-- Line 478: the mount VM name; `suffix` stands for the 8-character value
drawn by `random.choices` on line 476 (unseeded, hence not a function of
the run's inputs). -/
def mount_vm_name (vmName suffix : String) : String :=
  base_name vmName ++ "-mount-" ++ suffix


/-! ## Loop lemmas -/

theorem oracleLoop_queries_le (env : Nat → OraclePollEvent) :
    ∀ n k, (oracleLoop env k n).queries ≤ n := by
  intro n
  induction n with
  | zero => intro k; simp [oracleLoop]
  | succ m ih =>
    intro k
    cases h : oracleStep (env k) with
    | none =>
      have := ih (k + 1)
      simp only [oracleLoop, h]
      omega
    | some b => simp [oracleLoop, h]

theorem oracleLoop_all_none (env : Nat → OraclePollEvent) :
    ∀ n k, (∀ j, j < n → oracleStep (env (k + j)) = none) →
      oracleLoop env k n = ⟨false, n, n - 1⟩ := by
  intro n
  induction n with
  | zero => intro k _; rfl
  | succ m ih =>
    intro k hall
    have h0 : oracleStep (env k) = none := by
      have := hall 0 (Nat.succ_pos m)
      simpa using this
    have hrest : oracleLoop env (k + 1) m = ⟨false, m, m - 1⟩ := by
      apply ih
      intro j hj
      have := hall (j + 1) (by omega)
      have hadd : k + (j + 1) = k + 1 + j := by omega
      rwa [hadd] at this
    simp only [oracleLoop, h0, hrest]
    rcases Nat.eq_zero_or_pos m with hm | hm
    · subst hm; rfl
    · simp only [if_pos hm, OracleRun.mk.injEq]
      refine ⟨trivial, trivial, by omega⟩

theorem oracleLoop_sleeps (env : Nat → OraclePollEvent) :
    ∀ n k, 1 ≤ n → (oracleLoop env k n).sleeps + 1 = (oracleLoop env k n).queries := by
  intro n
  induction n with
  | zero => intro k h; omega
  | succ m ih =>
    intro k _
    cases h : oracleStep (env k) with
    | some b => simp [oracleLoop, h]
    | none =>
      rcases Nat.eq_zero_or_pos m with hm | hm
      · subst hm; simp [oracleLoop, h]
      · have hrec := ih (k + 1) hm
        simp only [oracleLoop, h, if_pos hm]
        omega

theorem hypervLoop_queries_le (env : Nat → ActivityPollEvent) :
    ∀ n i, (hypervLoop env i n).queries ≤ n := by
  intro n
  induction n with
  | zero => intro i; simp [hypervLoop]
  | succ m ih =>
    intro i
    cases h : hypervBreakOn (env i) with
    | false =>
      have := ih (i + 1)
      simp only [hypervLoop, h, Bool.false_eq_true, if_false]
      omega
    | true => simp [hypervLoop, h]

theorem hypervLoop_all_false (env : Nat → ActivityPollEvent) :
    ∀ n i, (∀ j, j < n → hypervBreakOn (env (i + j)) = false) →
      hypervLoop env i n = ⟨none, n, n - 1⟩ := by
  intro n
  induction n with
  | zero => intro i _; rfl
  | succ m ih =>
    intro i hall
    have h0 : hypervBreakOn (env i) = false := by
      have := hall 0 (Nat.succ_pos m)
      simpa using this
    have hrest : hypervLoop env (i + 1) m = ⟨none, m, m - 1⟩ := by
      apply ih
      intro j hj
      have := hall (j + 1) (by omega)
      have hadd : i + (j + 1) = i + 1 + j := by omega
      rwa [hadd] at this
    simp only [hypervLoop, h0, Bool.false_eq_true, if_false, hrest]
    rcases Nat.eq_zero_or_pos m with hm | hm
    · subst hm; rfl
    · simp only [if_pos hm, HypervPollRun.mk.injEq]
      refine ⟨trivial, trivial, by omega⟩

theorem hypervLoop_sleeps (env : Nat → ActivityPollEvent) :
    ∀ n i, 1 ≤ n → (hypervLoop env i n).sleeps + 1 = (hypervLoop env i n).queries := by
  intro n
  induction n with
  | zero => intro i h; omega
  | succ m ih =>
    intro i _
    cases h : hypervBreakOn (env i) with
    | true => simp [hypervLoop, h]
    | false =>
      rcases Nat.eq_zero_or_pos m with hm | hm
      · subst hm; simp [hypervLoop, h]
      · have hrec := ih (i + 1) hm
        simp only [hypervLoop, h, Bool.false_eq_true, if_false, if_pos hm]
        omega

theorem hyperv_poll_counts (env : Nat → ActivityPollEvent) :
    (hyperv_poll env).queries = (hypervLoop env 0 max_checks).queries ∧
    (hyperv_poll env).sleeps = (hypervLoop env 0 max_checks).sleeps := by
  unfold hyperv_poll
  cases h : (hypervLoop env 0 max_checks).finalState <;> simp [h]

theorem unmountLoop_all_fail (env : Nat → UnmountResponse) :
    ∀ n k, (∀ j, j < n → unmountAttemptOk (env (k + j)) = false) →
      unmountLoop env k n = ⟨false, n, n - 1⟩ := by
  intro n
  induction n with
  | zero => intro k _; rfl
  | succ m ih =>
    intro k hall
    have h0 : unmountAttemptOk (env k) = false := by
      have := hall 0 (Nat.succ_pos m)
      simpa using this
    have hrest : unmountLoop env (k + 1) m = ⟨false, m, m - 1⟩ := by
      apply ih
      intro j hj
      have := hall (j + 1) (by omega)
      have hadd : k + (j + 1) = k + 1 + j := by omega
      rwa [hadd] at this
    rcases Nat.eq_zero_or_pos m with hm | hm
    · subst hm
      simp [unmountLoop, h0]
    · simp only [unmountLoop, h0, Bool.false_eq_true, if_false, if_pos hm, hrest,
        UnmountRun.mk.injEq]
      refine ⟨trivial, trivial, by omega⟩

theorem unmountLoop_first_ok (env : Nat → UnmountResponse) :
    ∀ a n k, a < n → (∀ j, j < a → unmountAttemptOk (env (k + j)) = false) →
      unmountAttemptOk (env (k + a)) = true →
      unmountLoop env k n = ⟨true, a + 1, a⟩ := by
  intro a
  induction a with
  | zero =>
    intro n k hn _ hok
    obtain ⟨m, rfl⟩ : ∃ m, n = m + 1 := ⟨n - 1, by omega⟩
    rw [Nat.add_zero] at hok
    simp [unmountLoop, hok]
  | succ b ih =>
    intro n k hn hprev hok
    obtain ⟨m, rfl⟩ : ∃ m, n = m + 1 := ⟨n - 1, by omega⟩
    have h0 : unmountAttemptOk (env k) = false := by
      have := hprev 0 (Nat.succ_pos b)
      simpa using this
    have hm : 0 < m := by omega
    have hrest : unmountLoop env (k + 1) m = ⟨true, b + 1, b⟩ := by
      apply ih m (k + 1) (by omega)
      · intro j hj
        have := hprev (j + 1) (by omega)
        have hadd : k + (j + 1) = k + 1 + j := by omega
        rwa [hadd] at this
      · have hadd : k + (b + 1) = k + 1 + b := by omega
        rwa [hadd] at hok
    simp [unmountLoop, h0, if_pos hm, hrest]

theorem hyperv_finish_not_succeeded (fs : String) (loc : Option String) (un : Bool)
    (h : fs ≠ "SUCCEEDED") : hyperv_finish fs loc un = ⟨1, 0, 0, 0⟩ := by
  simp [hyperv_finish, h]

theorem oracleTerminal_isSome_iff (s : String) :
    (oracleTerminal s).isSome = true ↔
      s ∈ (["SUCCEEDED", "FAILED", "FAILURE", "CANCELLED", "CANCELED"] : List String) := by
  unfold oracleTerminal
  split_ifs with h1 h2 h3 <;> simp_all
  tauto

/-! ## Claim theorems -/

/-- Poll environment of Scenario A: the first two activity-log checks report
a matching `Mount` activity with raw status `Running`, the third reports
`Success`. -/
def scenarioA_pollEnv : Nat → ActivityPollEvent := fun k =>
  if k < 2 then .edges [some ⟨some "Mount", some "Running"⟩]
  else .edges [some ⟨some "Mount", some "Success"⟩]

/-- Claim C1: the spec requires the fully successful Hyper-V run (poll ends
`SUCCEEDED`, mount located, unmount initiation succeeds) to exit with code 0.
The code exits 1 on exactly that run: `exit_code` is initialised to 1
(line 356), never reassigned on the success path, and the success assignment
on line 508 is guarded by `exit_code != 1`, which therefore never holds.
This theorem evaluates the embedded code at the failing input. -/
theorem C1_successful_hyperv_run_exits_one :
    hyperv_poll scenarioA_pollEnv = ⟨some "SUCCEEDED", 3, 2⟩ ∧
    (find_hyperv_mount_id [⟨some "mnt-77", some "vm-mount-a1b2"⟩]
        "vm-mount-a1b2").mountId = some "mnt-77" ∧
    (unmount_vm (fun _ => .ok (some ⟨some "task-1", some "QUEUED", none⟩))
        3).result = true ∧
    (hyperv_workflow scenarioA_pollEnv [⟨some "mnt-77", some "vm-mount-a1b2"⟩]
        "vm-mount-a1b2"
        (fun _ => .ok (some ⟨some "task-1", some "QUEUED", none⟩))).exitCode = 1 := by
  decide

/-- Claim C2: each poll loop performs at most `maxAttempts` status queries
and always terminates; when no attempt reaches a terminal classification,
the Oracle loop returns failure after its 120 checks and the Hyper-V loop
ends in the synthetic `TIMEOUT` state after its 72 checks, and every run
takes exactly one interval sleep between consecutive attempts (so
`queries - 1` sleeps in total). -/
theorem C2_poller_bounded_timeout (oenv : Nat → OraclePollEvent)
    (henv : Nat → ActivityPollEvent)
    (ho : ∀ k, k < max_oracle_checks → oracleStep (oenv k) = none)
    (hh : ∀ k, k < max_checks → hypervBreakOn (henv k) = false) :
    wait_for_oracle_job oenv = ⟨false, max_oracle_checks, max_oracle_checks - 1⟩ ∧
    hyperv_poll henv = ⟨some "TIMEOUT", max_checks, max_checks - 1⟩ ∧
    (∀ env : Nat → OraclePollEvent,
      (wait_for_oracle_job env).queries ≤ max_oracle_checks ∧
      (wait_for_oracle_job env).sleeps + 1 = (wait_for_oracle_job env).queries) ∧
    (∀ env : Nat → ActivityPollEvent,
      (hyperv_poll env).queries ≤ max_checks ∧
      (hyperv_poll env).sleeps + 1 = (hyperv_poll env).queries) := by
  refine ⟨?_, ?_, ?_, ?_⟩
  · exact oracleLoop_all_none oenv max_oracle_checks 0
      (fun j hj => by simpa using ho j hj)
  · have hl := hypervLoop_all_false henv max_checks 0
      (fun j hj => by simpa using hh j hj)
    simp [hyperv_poll, hl]
  · intro env
    exact ⟨oracleLoop_queries_le env max_oracle_checks 0,
      oracleLoop_sleeps env max_oracle_checks 0 (by decide)⟩
  · intro env
    have hc := hyperv_poll_counts env
    refine ⟨?_, ?_⟩
    · rw [hc.1]
      exact hypervLoop_queries_le env max_checks 0
    · rw [hc.1, hc.2]
      exact hypervLoop_sleeps env max_checks 0 (by decide)

/-- Witness for C2 at concrete environments: an Oracle job that always
reports `RUNNING` and an activity-log query that always raises. -/
theorem C2_poller_bounded_timeout_witness :
    wait_for_oracle_job (fun _ => .details (some "RUNNING")) =
      ⟨false, max_oracle_checks, max_oracle_checks - 1⟩ ∧
    hyperv_poll (fun _ => .exn) = ⟨some "TIMEOUT", max_checks, max_checks - 1⟩ := by
  have h := C2_poller_bounded_timeout (fun _ => .details (some "RUNNING"))
    (fun _ => .exn) (fun k _ => rfl) (fun k _ => rfl)
  exact ⟨h.1, h.2.1⟩

/-- Claim C3: a poll attempt on which the status query raises is caught, not
re-raised: the Oracle step classifies it as non-terminal and the activity
check returns `None`, and in both loops the run continues with the next
attempt (one more query, result determined by the remaining attempts). -/
theorem C3_poll_exception_continues (oenv : Nat → OraclePollEvent)
    (henv : Nat → ActivityPollEvent) (k rem : Nat)
    (ho : oenv k = .exn) (hh : henv k = .exn) :
    oracleStep .exn = none ∧
    check_rubrik_task_status .exn = none ∧
    (oracleLoop oenv k (rem + 1)).result = (oracleLoop oenv (k + 1) rem).result ∧
    (oracleLoop oenv k (rem + 1)).queries
      = (oracleLoop oenv (k + 1) rem).queries + 1 ∧
    (hypervLoop henv k (rem + 1)).finalState
      = (hypervLoop henv (k + 1) rem).finalState ∧
    (hypervLoop henv k (rem + 1)).queries
      = (hypervLoop henv (k + 1) rem).queries + 1 := by
  have ho2 : oracleStep (oenv k) = none := by rw [ho]; rfl
  have hh2 : hypervBreakOn (henv k) = false := by rw [hh]; rfl
  refine ⟨?_, ?_, ?_, ?_, ?_, ?_⟩
  · rfl
  · rfl
  · simp [oracleLoop, ho2]
  · simp [oracleLoop, ho2]
  · simp [hypervLoop, hh2]
  · simp [hypervLoop, hh2]

/-- Witness for C3: both queries raise on every attempt. -/
theorem C3_poll_exception_continues_witness :
    (oracleLoop (fun _ => .exn) 0 4).queries
      = (oracleLoop (fun _ => .exn) 1 3).queries + 1 ∧
    (hypervLoop (fun _ => .exn) 0 4).finalState
      = (hypervLoop (fun _ => .exn) 1 3).finalState := by
  have h := C3_poll_exception_continues (fun _ => .exn) (fun _ => .exn) 0 3 rfl rfl
  exact ⟨h.2.2.2.1, h.2.2.2.2.1⟩

/-- Claim C4: the coordinator enters the resource step (locate, then
unmount) only when the mount poll ended `SUCCEEDED`; for a `FAILED`,
`CANCELED` or `TIMEOUT` result neither the locator nor the unmount routine
is invoked. -/
theorem C4_resource_step_only_on_success (fs : String) (loc : Option String)
    (un : Bool) (hfs : fs ∈ (["FAILED", "CANCELED", "TIMEOUT"] : List String)) :
    (hyperv_finish fs loc un).locateCalls = 0 ∧
    (hyperv_finish fs loc un).unmountCalls = 0 ∧
    (∀ fs2 : String, ∀ loc2 : Option String, ∀ un2 : Bool,
      ((hyperv_finish fs2 loc2 un2).locateCalls ≠ 0 ∨
        (hyperv_finish fs2 loc2 un2).unmountCalls ≠ 0) → fs2 = "SUCCEEDED") := by
  have hmain : ∀ fs2 : String, ∀ loc2 : Option String, ∀ un2 : Bool,
      ((hyperv_finish fs2 loc2 un2).locateCalls ≠ 0 ∨
        (hyperv_finish fs2 loc2 un2).unmountCalls ≠ 0) → fs2 = "SUCCEEDED" := by
    intro fs2 loc2 un2 h
    by_contra hne
    rw [hyperv_finish_not_succeeded fs2 loc2 un2 hne] at h
    simp at h
  have hne : fs ≠ "SUCCEEDED" := by
    simp only [List.mem_cons, List.not_mem_nil, or_false] at hfs
    rcases hfs with rfl | rfl | rfl <;> decide
  rw [hyperv_finish_not_succeeded fs loc un hne]
  exact ⟨rfl, rfl, hmain⟩

/-- Witness for C4 at the `TIMEOUT` final state. -/
theorem C4_resource_step_only_on_success_witness :
    (hyperv_finish "TIMEOUT" (some "mnt-77") true).locateCalls = 0 ∧
    (hyperv_finish "TIMEOUT" (some "mnt-77") true).unmountCalls = 0 := by
  have h := C4_resource_step_only_on_success "TIMEOUT" (some "mnt-77") true (by decide)
  exact ⟨h.1, h.2.1⟩

/-- Claim C5, counterexample: the Hyper-V poll loop also stops early on
`WARNING` (and `PARTIALLY_SUCCEEDED`), which is outside the claimed terminal
set {SUCCEEDED, FAILED, CANCELED}: with every activity check reporting a
matching activity with raw status `Warning`, the loop ends on attempt 1 of
72. -/
theorem C5_warning_ends_loop_counterexample :
    (hyperv_poll (fun _ => .edges [some ⟨some "Mount", some "Warning"⟩])).finalState
      = some "WARNING" ∧
    (hyperv_poll (fun _ => .edges [some ⟨some "Mount", some "Warning"⟩])).queries = 1 ∧
    1 < max_checks ∧
    "WARNING" ∉ (["SUCCEEDED", "FAILED", "CANCELED"] : List String) := by
  decide

/-- Claim C5 (amended): classification is case-insensitive (it factors
through upper-casing) and unrecognised values are non-terminal, but the
early-stop vocabularies are larger than claimed: the Oracle loop stops
early exactly when the upper-cased status is one of SUCCEEDED, FAILED,
FAILURE, CANCELLED, CANCELED, and the Hyper-V loop stops early exactly when
the mapped status is truthy and in its `final_states` list, which also
contains WARNING and PARTIALLY_SUCCEEDED; in both loops a terminal attempt
returns immediately and a non-terminal one continues with the next
attempt. -/
theorem C5_terminal_classification_amended :
    (∀ st : Option String,
      (oracleStep (.details st)).isSome = true ↔
        pyUpper (st.getD "UNKNOWN") ∈
          (["SUCCEEDED", "FAILED", "FAILURE", "CANCELLED", "CANCELED"] : List String)) ∧
    (∀ ev : ActivityPollEvent,
      hypervBreakOn ev = true ↔
        ∃ s, check_rubrik_task_status ev = some s ∧ s ≠ "" ∧ s ∈ final_states) ∧
    (∀ env : Nat → OraclePollEvent, ∀ k rem : Nat, ∀ b : Bool,
      oracleStep (env k) = some b → oracleLoop env k (rem + 1) = ⟨b, 1, 0⟩) ∧
    (∀ env : Nat → OraclePollEvent, ∀ k rem : Nat, oracleStep (env k) = none →
      (oracleLoop env k (rem + 1)).queries
        = (oracleLoop env (k + 1) rem).queries + 1) ∧
    (∀ env : Nat → ActivityPollEvent, ∀ k rem : Nat, hypervBreakOn (env k) = true →
      hypervLoop env k (rem + 1) = ⟨check_rubrik_task_status (env k), 1, 0⟩) ∧
    (∀ env : Nat → ActivityPollEvent, ∀ k rem : Nat, hypervBreakOn (env k) = false →
      (hypervLoop env k (rem + 1)).queries
        = (hypervLoop env (k + 1) rem).queries + 1) := by
  refine ⟨?_, ?_, ?_, ?_, ?_, ?_⟩
  · intro st
    exact oracleTerminal_isSome_iff (pyUpper (st.getD "UNKNOWN"))
  · intro ev
    unfold hypervBreakOn
    cases h : check_rubrik_task_status ev with
    | none => simp
    | some s => simp [List.contains, List.elem_eq_mem]
  · intro env k rem b h
    simp [oracleLoop, h]
  · intro env k rem h
    simp [oracleLoop, h]
  · intro env k rem h
    simp [hypervLoop, h]
  · intro env k rem h
    simp [hypervLoop, h]

/-- Witness for C5 (amended): a `Warning` activity stops the loop; a
`Succeeded` Oracle status (any casing) returns `True` on the first
attempt. -/
theorem C5_terminal_classification_amended_witness :
    hypervBreakOn (.edges [some ⟨some "Mount", some "Warning"⟩]) = true ∧
    oracleLoop (fun _ => .details (some "Succeeded")) 0 5 = ⟨true, 1, 0⟩ := by
  have h := C5_terminal_classification_amended
  constructor
  · exact (h.2.1 _).mpr ⟨"WARNING", by decide, by decide, by decide⟩
  · exact h.2.2.1 (fun _ => .details (some "Succeeded")) 0 4 true (by decide)

/-- Claim C6, counterexample: an entry whose reported name differs from the
requested mount name is still accepted: the mismatch is only logged
(line 278) and the entry id is returned. -/
theorem C6_mismatch_accepted_counterexample :
    (find_hyperv_mount_id [⟨some "m1", some "not-the-requested-name"⟩]
        "vm-mount-a1b2").mountId = some "m1" ∧
    (find_hyperv_mount_id [⟨some "m1", some "not-the-requested-name"⟩]
        "vm-mount-a1b2").loggedNameMismatch = true := by
  decide

/-- Claim C6 (amended): after a successful mount the coordinator waits the
10-second grace period and invokes the locator exactly once (no internal
retry); an empty lookup yields no id; with results, the first entry in
returned order decides the outcome, a warning is logged exactly when more
than one entry is returned, and a name mismatch is logged but the first
entry is still accepted whenever its id is truthy. -/
theorem C6_locator_amended (h : MountNode) (rest : List MountNode)
    (target : String) (loc : Option String) (un : Bool) (fs : String)
    (hfs : fs = "SUCCEEDED") :
    (find_hyperv_mount_id (h :: rest) target).mountId
      = (if pyTruthy h.id then h.id else none) ∧
    (find_hyperv_mount_id (h :: rest) target).warnedMultiple
      = decide (0 < rest.length) ∧
    (find_hyperv_mount_id (h :: rest) target).loggedNameMismatch
      = decide (h.name ≠ some target) ∧
    (find_hyperv_mount_id [] target).mountId = none ∧
    (hyperv_finish fs loc un).graceSleep = 10 ∧
    (hyperv_finish fs loc un).locateCalls = 1 := by
  subst hfs
  have hgrace : (hyperv_finish "SUCCEEDED" loc un).graceSleep = 10 ∧
      (hyperv_finish "SUCCEEDED" loc un).locateCalls = 1 := by
    unfold hyperv_finish
    cases hp : pyTruthy loc <;> cases un <;> simp [hp]
  refine ⟨?_, ?_, ?_, rfl, hgrace.1, hgrace.2⟩
  · unfold find_hyperv_mount_id
    cases hid : pyTruthy h.id <;> simp [hid]
  · unfold find_hyperv_mount_id
    cases hid : pyTruthy h.id <;>
      simp [hid, decide_eq_decide]
  · unfold find_hyperv_mount_id
    cases hid : pyTruthy h.id <;> simp [hid]

/-- Witness for C6 (amended): two exactly-named entries; the first is
selected and the multiple-match warning fires. -/
theorem C6_locator_amended_witness :
    (find_hyperv_mount_id
        [⟨some "mnt-77", some "vm-mount-a1b2"⟩, ⟨some "mnt-78", some "vm-mount-a1b2"⟩]
        "vm-mount-a1b2").mountId = some "mnt-77" ∧
    (find_hyperv_mount_id
        [⟨some "mnt-77", some "vm-mount-a1b2"⟩, ⟨some "mnt-78", some "vm-mount-a1b2"⟩]
        "vm-mount-a1b2").warnedMultiple = true ∧
    (hyperv_finish "SUCCEEDED" (some "mnt-77") true).graceSleep = 10 := by
  have h := C6_locator_amended ⟨some "mnt-77", some "vm-mount-a1b2"⟩
    [⟨some "mnt-78", some "vm-mount-a1b2"⟩] "vm-mount-a1b2"
    (some "mnt-77") true "SUCCEEDED" rfl
  refine ⟨?_, ?_, h.2.2.2.2.1⟩
  · rw [h.1]; decide
  · rw [h.2.1]; decide

/-- Claim C7: `unmount_vm` is total and returns a boolean; transport
exceptions, empty payloads, and error objects carrying a message all fail
the attempt (retriable); the loop returns `True` at the first accepted
attempt (after one fixed-delay sleep per preceding failure) and returns
`False` only after all `maxRetries` attempts are exhausted. -/
theorem C7_unmount_retry_contract (env : Nat → UnmountResponse) (n : Nat) :
    unmountAttemptOk .exn = false ∧
    unmountAttemptOk (.ok none) = false ∧
    (∀ r : UnmountResult, ∀ e : UnmountError, ∀ m : String,
      r.error = some e → e.message = some m → m ≠ "" →
      unmountAttemptOk (.ok (some r)) = false) ∧
    ((∀ j, j < n → unmountAttemptOk (env j) = false) →
      unmount_vm env n = ⟨false, n, n - 1⟩) ∧
    (∀ a, a < n → (∀ j, j < a → unmountAttemptOk (env j) = false) →
      unmountAttemptOk (env a) = true →
      unmount_vm env n = ⟨true, a + 1, a⟩) := by
  refine ⟨rfl, rfl, ?_, ?_, ?_⟩
  · intro r e m hre hmsg hne
    have hmt : pyTruthy (some m) = true := by simp [pyTruthy, hne]
    simp [unmountAttemptOk, errWithMsg, hre, hmsg, hmt]
  · intro hall
    exact unmountLoop_all_fail env n 0 (fun j hj => by simpa using hall j hj)
  · intro a ha hprev hok
    exact unmountLoop_first_ok env a n 0 ha
      (fun j hj => by simpa using hprev j hj) (by simpa using hok)

/-- Witness for C7: two failing attempts (an exception, then an explicit
error message) followed by an accepted attempt give `True` on attempt 3;
three exceptions give `False` with all 3 attempts used. -/
theorem C7_unmount_retry_contract_witness :
    unmount_vm
      (fun k => if k = 0 then .exn
        else if k = 1 then .ok (some ⟨none, none, some ⟨some "busy"⟩⟩)
        else .ok (some ⟨some "task-9", some "QUEUED", none⟩)) 3 = ⟨true, 3, 2⟩ ∧
    unmount_vm (fun _ => .exn) 3 = ⟨false, 3, 2⟩ := by
  constructor
  · exact (C7_unmount_retry_contract
      (fun k => if k = 0 then .exn
        else if k = 1 then .ok (some ⟨none, none, some ⟨some "busy"⟩⟩)
        else .ok (some ⟨some "task-9", some "QUEUED", none⟩)) 3).2.2.2.2
      2 (by decide) (by decide) (by decide)
  · exact (C7_unmount_retry_contract (fun _ => .exn) 3).2.2.2.1 (by decide)

/-- Claim C8: neither workflow classifies a submission response lacking a
usable (truthy) operation id as success: the Oracle validation and the
Hyper-V mount initiation succeed exactly when the response carries a truthy
id, and otherwise raise, so no handle is polled. -/
theorem C8_submit_requires_id (resp : Option SubmitResponse) :
    ((∃ r, validate_oracle_db_backup resp = .ok r) ↔
      (∃ r, resp = some r ∧ pyTruthy r.id = true)) ∧
    ((∃ tid, hyperv_mount_submit resp = .ok tid) ↔
      (∃ r, resp = some r ∧ pyTruthy r.id = true)) ∧
    (∀ r : SubmitResponse, pyTruthy r.id = false →
      validate_oracle_db_backup (some r)
          = .error "Failed to initiate Oracle validation." ∧
      hyperv_mount_submit (some r) = .error "Mount failed.") := by
  refine ⟨?_, ?_, ?_⟩
  · cases resp with
    | none => simp [validate_oracle_db_backup]
    | some r =>
      cases h : pyTruthy r.id <;> simp [validate_oracle_db_backup, h]
  · cases resp with
    | none => simp [hyperv_mount_submit, pyTruthy]
    | some r =>
      cases h : pyTruthy r.id <;> simp [hyperv_mount_submit, h]
  · intro r h
    constructor
    · simp [validate_oracle_db_backup, h]
    · simp [hyperv_mount_submit, h]

/-- Witness for C8: a response whose id is absent is rejected by both
submitters. -/
theorem C8_submit_requires_id_witness :
    validate_oracle_db_backup (some ⟨none, some "QUEUED"⟩)
        = .error "Failed to initiate Oracle validation." ∧
    hyperv_mount_submit (some ⟨none, some "QUEUED"⟩) = .error "Mount failed." := by
  exact (C8_submit_requires_id (some ⟨none, some "QUEUED"⟩)).2.2
    ⟨none, some "QUEUED"⟩ (by decide)

/-- Claim C9, counterexample: the mount name is not a deterministic function
of the run's inputs: two runs that select the same VM but draw different
(unseeded) random suffixes produce different mount names. -/
theorem C9_random_suffix_counterexample :
    mount_vm_name "WinSrv2019" "a1b2c3d4" ≠ mount_vm_name "WinSrv2019" "x9y8z7w6" := by
  decide

/-- Claim C9 (amended): the mount name is deterministic only given the
random suffix: it equals the sanitised, 20-character-truncated VM name plus
`"-mount-"` plus the 8-character suffix drawn by `random.choices`, and for
a fixed VM name two runs pick the same mount name exactly when they draw
the same suffix. -/
theorem C9_mount_name_amended (vm s t : String) :
    mount_vm_name vm s = base_name vm ++ "-mount-" ++ s ∧
    (mount_vm_name vm s = mount_vm_name vm t ↔ s = t) := by
  refine ⟨rfl, ?_, ?_⟩
  · intro hst
    have h2 : (base_name vm ++ "-mount-" ++ s).data
        = (base_name vm ++ "-mount-" ++ t).data := by
      rw [show base_name vm ++ "-mount-" ++ s = mount_vm_name vm s from rfl,
        show base_name vm ++ "-mount-" ++ t = mount_vm_name vm t from rfl, hst]
    have h3 : s.data = t.data := by
      simp only [String.data_append, List.append_assoc] at h2
      exact List.append_cancel_left (List.append_cancel_left h2)
    exact String.toList_inj.mp h3
  · intro hst
    rw [hst]

/-- Witness for C9 (amended): the concrete shape of a generated name and
injectivity in the suffix at concrete suffixes. -/
theorem C9_mount_name_amended_witness :
    mount_vm_name "WinSrv2019" "a1b2c3d4" = "WinSrv2019-mount-a1b2c3d4" ∧
    (mount_vm_name "WinSrv2019" "a1b2c3d4" = mount_vm_name "WinSrv2019" "x9y8z7w6"
      ↔ "a1b2c3d4" = "x9y8z7w6") := by
  have h := C9_mount_name_amended "WinSrv2019" "a1b2c3d4" "x9y8z7w6"
  refine ⟨?_, h.2⟩
  rw [h.1]
  decide

/-- Claim C10: an unmount attempt whose payload is non-empty and carries no
truthy error message is accepted even without a task id (lines 314-320
return `True` in both branches), so a task id is sufficient but not
necessary; with such a first response `unmount_vm` returns `True` after one
attempt. -/
theorem C10_no_error_message_accepts (r : UnmountResult)
    (henv : Nat → UnmountResponse) (n : Nat)
    (herr : errWithMsg r.error = false) (h0 : henv 0 = .ok (some r))
    (hn : 1 ≤ n) :
    unmountAttemptOk (.ok (some r)) = true ∧
    (unmount_vm henv n).result = true ∧
    (unmount_vm henv n).attempts = 1 := by
  have hok : unmountAttemptOk (.ok (some r)) = true := by
    simp [unmountAttemptOk, herr]
  obtain ⟨m, rfl⟩ : ∃ m, n = m + 1 := ⟨n - 1, by omega⟩
  have h0ok : unmountAttemptOk (henv 0) = true := by rw [h0]; exact hok
  refine ⟨hok, ?_, ?_⟩ <;> simp [unmount_vm, unmountLoop, h0ok]

/-- Witness for C10: a payload with no task id and no error object is
accepted on the first attempt. -/
theorem C10_no_error_message_accepts_witness :
    unmountAttemptOk (.ok (some ⟨none, some "QUEUED", none⟩)) = true ∧
    (unmount_vm (fun _ => .ok (some ⟨none, some "QUEUED", none⟩)) 3).result = true := by
  have h := C10_no_error_message_accepts ⟨none, some "QUEUED", none⟩
    (fun _ => .ok (some ⟨none, some "QUEUED", none⟩)) 3 rfl rfl (by decide)
  exact ⟨h.1, h.2.1⟩

end RSC
